import Mathlib

/-!
Verification development for the StudyNest backend (`src/server.py`).

The Python service is shallowly embedded as pure Lean functions over an
explicit database state.  Conventions used throughout:

* Machine integers do not occur: Python integers are unbounded, so they are
  modelled as `Int` (or `Nat` where the source value is a count).
* Instants in time are modelled as minutes since the Unix epoch (`Int`);
  a UTC calendar day then is the floor division of an instant by 1440.
* Python floats that carry grade values are modelled as exact rationals.
* The MongoDB collections are modelled as Lean lists of documents; the
  subset of query operators the source uses (`find_one`, `find`, `$or`
  filters, `$inc` updates, `delete_one`, `count_documents`) is embedded
  directly at each call site.
* Each HTTP handler becomes a function `DB → ... → Except HttpError α × DB`
  threading the database through the sequence of store calls the handler
  performs, so that the state returned on an error path is exactly the
  state at the raise point.
* Sources of nondeterminism (generated UUIDs, the current time, the
  outcome of the external LLM call, the index drawn by `random.choice`)
  are passed as explicit parameters.
-/

namespace StudyNest

/-- An `HTTPException` raised by a handler: status code plus detail message. -/
structure HttpError where
  status_code : Nat
  detail : String
deriving DecidableEq

/-- Embeds the `User` pydantic model of `server.py`.  `created_at` is an
instant in minutes since the epoch. -/
structure User where
  id : String
  username : String
  email : String
  password_hash : String
  full_name : Option String
  avatar : String
  credits : Int
  total_study_minutes : Int
  created_at : Int
deriving DecidableEq

/-- Embeds the `UserCreate` request model. -/
structure UserCreate where
  username : String
  email : String
  password : String
  full_name : Option String
deriving DecidableEq

/-- Embeds the `UserProfile` response model. -/
structure UserProfile where
  id : String
  username : String
  email : String
  full_name : Option String
  avatar : String
  credits : Int
  total_study_minutes : Int
deriving DecidableEq

/-- Embeds the `Subject` pydantic model. -/
structure Subject where
  id : String
  user_id : String
  name : String
  color : String
  target_hours_per_week : Int
  created_at : Int
deriving DecidableEq

/-- Embeds the `SubjectCreate` request model. -/
structure SubjectCreate where
  name : String
  color : String
  target_hours_per_week : Int
deriving DecidableEq

/-- Embeds the `Grade` pydantic model; the float fields `grade` and
`max_grade` are modelled as exact rationals. -/
structure Grade where
  id : String
  user_id : String
  subject_id : String
  grade : ℚ
  max_grade : ℚ
  exam_name : String
  exam_date : Int
  created_at : Int
deriving DecidableEq

/-- Embeds the `GradeCreate` request model. -/
structure GradeCreate where
  subject_id : String
  grade : ℚ
  max_grade : ℚ
  exam_name : String
  exam_date : Int
deriving DecidableEq

/-- A value held in the `date` field of a stored study-session document.
`server.py` writes `session_dict[date] = session_dict[date].isoformat()`
before `insert_one`, so documents carry an ISO-8601 string, while the
in-memory pydantic object carries a datetime.  MongoDB distinguishes the
two BSON types, so the embedding must as well. -/
inductive StoredDate where
  | str (s : String)
  | date (t : Int)
deriving DecidableEq

/-- Embeds the `StudySession` pydantic model / stored document. -/
structure StudySession where
  id : String
  user_id : String
  subject_id : String
  duration_minutes : Int
  credits_earned : Int
  date : StoredDate
  motivational_phrases : List String
deriving DecidableEq

/-- Embeds the `StudySessionCreate` request model.  The source declares
`duration_minutes: int` with no constraint, so any integer is accepted. -/
structure StudySessionCreate where
  subject_id : String
  duration_minutes : Int
deriving DecidableEq

/-- The four MongoDB collections the service uses. -/
structure DB where
  users : List User
  subjects : List Subject
  grades : List Grade
  study_sessions : List StudySession
deriving DecidableEq

/-- Models Python `datetime.isoformat` applied to an instant: some textual
rendering of the instant.  Every claim below depends only on the result
being a string (a BSON string once stored), never on the exact characters,
so a simple injective rendering suffices. -/
def isoformat (t : Int) : String :=
  "1970-01-01T00:00+" ++ toString t ++ "m"

/-- Minutes per day, used to relate instants and UTC calendar days. -/
def minutesPerDay : Int := 1440

/-- Models `datetime.now(timezone.utc).date()`: the UTC calendar day that
contains the instant `now` (floor division, matching Python `//`). -/
def dateOf (now : Int) : Int :=
  Int.fdiv now minutesPerDay

/-- Models `datetime.combine(day, datetime.min.time())`: the first instant
of the calendar day `day`. -/
def startOfDay (day : Int) : Int :=
  day * minutesPerDay

/-- The credit computation of `create_study_session`, line 367 of
`server.py`: `credits_earned = (session_data.duration_minutes // 30) * 5`.
Python `//` is floor division, which on `Int` is `Int.fdiv`. -/
def credits_earned_of (duration_minutes : Int) : Int :=
  (Int.fdiv duration_minutes 30) * 5

/-- Models `passlib` bcrypt hashing, declared out of scope by the spec; the
claims never inspect the hash, only carry it. -/
def hash_password (password : String) : String :=
  "bcrypt$" ++ password

/-- A signed access token: embeds the subject claim and the expiry instant. -/
structure Token where
  sub : String
  exp : Int
deriving DecidableEq

/-- Embeds `create_access_token`: subject plus expiry of now + 7 days. -/
def create_access_token (sub : String) (now : Int) : Token :=
  { sub := sub, exp := now + 7 * minutesPerDay }

/-- The dict returned by `register_user`: token, token type and profile. -/
structure RegisterResponse where
  access_token : Token
  token_type : String
  user : UserProfile
deriving DecidableEq

/-- The `UserProfile` built from a `User`, as in `register_user` and
`get_profile`. -/
def profileOf (u : User) : UserProfile :=
  { id := u.id, username := u.username, email := u.email,
    full_name := u.full_name, avatar := u.avatar, credits := u.credits,
    total_study_minutes := u.total_study_minutes }

/-- Outcome of the external LLM call inside `generate_motivational_phrase`:
either `send_message` returned a string, or some exception was raised
(network failure, auth failure, provider error). -/
inductive LlmOutcome where
  | response (s : String)
  | exn
deriving DecidableEq

/-- The hard-coded fallback list `default_phrases` of
`generate_motivational_phrase` (lines 182-188). -/
def default_phrases : List String :=
  ["Ogni minuto di studio è un passo verso il successo!",
   "La disciplina è il ponte tra obiettivi e risultati.",
   "Stai investendo nel tuo futuro, continua così!",
   "Il sapere è l\x27unica ricchezza che nessuno può rubarti.",
   "Oggi è più vicino di ieri ai tuoi obiettivi!"]

/-- Embeds `generate_motivational_phrase` (lines 165-190).  The function
catches every exception and instead returns `random.choice(default_phrases)`;
the drawn index is the explicit parameter `k`.  On a successful call it
returns `response.strip() if response else "Continua così, ..."`: the
truthiness test is on the UNSTRIPPED response, and an empty response yields
a fixed default string that is not an element of `default_phrases`. -/
def generate_motivational_phrase (outcome : LlmOutcome) (k : Fin 5) : String :=
  match outcome with
  | .response s =>
      if s = "" then "Continua così, stai facendo un ottimo lavoro!" else s.trim
  | .exn => default_phrases.getD k.val ""

/-- Models `db.subjects.find_one({"id": sid, "user_id": uid})`. -/
def subjects_find_one (db : DB) (sid uid : String) : Option Subject :=
  db.subjects.find? (fun s => s.id == sid && s.user_id == uid)

/-- Models the `$or` duplicate lookup of `register_user` (lines 196-201). -/
def users_find_duplicate (db : DB) (username email : String) : Option User :=
  db.users.find? (fun u => u.username == username || u.email == email)

/-- Models `db.users.update_one({"id": uid}, {"$inc": {...}})`: adds the
given deltas to the credit and minute counters of the first user document
whose id matches (MongoDB `update_one` touches at most one document). -/
def incUserCounters (users : List User) (uid : String) (dc dm : Int) :
    List User :=
  match users with
  | [] => []
  | u :: rest =>
      if u.id == uid then
        { u with credits := u.credits + dc,
                 total_study_minutes := u.total_study_minutes + dm } :: rest
      else
        u :: incUserCounters rest uid dc dm

/-- Models `db.subjects.delete_one(filter)`: removes the first matching
document and reports `deleted_count` (0 or 1). -/
def delete_one (l : List Subject) (p : Subject → Bool) : Nat × List Subject :=
  match l with
  | [] => (0, [])
  | x :: xs =>
      if p x then (1, xs)
      else
        let r := delete_one xs p
        (r.1, x :: r.2)

/-- The `User(...)` constructed by `register_user` (lines 210-216): the
pydantic defaults set avatar to the sentinel and both counters to 0. -/
def mkRegisteredUser (user_data : UserCreate) (uid : String) (now : Int) :
    User :=
  { id := uid, username := user_data.username, email := user_data.email,
    password_hash := hash_password user_data.password,
    full_name := user_data.full_name, avatar := "default.png",
    credits := 0, total_study_minutes := 0, created_at := now }

/-- Embeds `register_user` (lines 193-237).  The generated UUID and the
current instant are the explicit parameters `uid` and `now`.  On a
duplicate username or email the handler raises 400 before any write;
otherwise it inserts the new user and returns token plus profile. -/
def register_user (db : DB) (user_data : UserCreate) (uid : String)
    (now : Int) : Except HttpError RegisterResponse × DB :=
  match users_find_duplicate db user_data.username user_data.email with
  | some _ => (.error ⟨400, "Username or email already registered"⟩, db)
  | none =>
      let user : User := mkRegisteredUser user_data uid now
      let db1 : DB := { db with users := db.users ++ [user] }
      (.ok { access_token := create_access_token user.username now,
             token_type := "bearer", user := profileOf user }, db1)

/-- Embeds `get_subjects` (lines 291-297): owner-scoped find capped by
`to_list(100)`. -/
def get_subjects (db : DB) (current_user : User) : List Subject :=
  (db.subjects.filter (fun s => s.user_id == current_user.id)).take 100

/-- Embeds `delete_subject` (lines 299-312): issues the owner-scoped
`delete_one` first, then raises 404 when `deleted_count == 0`. -/
def delete_subject (db : DB) (current_user : User) (subject_id : String) :
    Except HttpError String × DB :=
  let r := delete_one db.subjects
      (fun s => s.id == subject_id && s.user_id == current_user.id)
  let db1 : DB := { db with subjects := r.2 }
  if r.1 == 0 then (.error ⟨404, "Subject not found"⟩, db1)
  else (.ok "Subject deleted successfully", db1)

/-- Embeds `add_grade` (lines 315-339): subject-ownership lookup before any
write, 404 on failure, otherwise insert of the new grade document. -/
def add_grade (db : DB) (current_user : User) (grade_data : GradeCreate)
    (gid : String) (now : Int) : Except HttpError Grade × DB :=
  match subjects_find_one db grade_data.subject_id current_user.id with
  | none => (.error ⟨404, "Subject not found"⟩, db)
  | some _ =>
      let grade : Grade :=
        { id := gid, user_id := current_user.id,
          subject_id := grade_data.subject_id, grade := grade_data.grade,
          max_grade := grade_data.max_grade, exam_name := grade_data.exam_name,
          exam_date := grade_data.exam_date, created_at := now }
      (.ok grade, { db with grades := db.grades ++ [grade] })

/-- The phrase-gathering step of `create_study_session` (lines 369-375): the
call to `generate_motivational_phrase` is wrapped in `try/except: pass`, so
the list is empty when the awaited call itself fails (`attempt = none`) and
otherwise holds the single returned phrase. -/
def sessionPhrases (attempt : Option (LlmOutcome × Fin 5)) : List String :=
  match attempt with
  | none => []
  | some (o, k) => [generate_motivational_phrase o k]

/-- The state of `create_study_session` after the `db.users.update_one`
counter increment (lines 385-394) but BEFORE the `db.study_sessions.insert_one`
(line 398): the prefix of the handler up to that program point.  When the
subject lookup fails the handler has raised 404 already and nothing was
written. -/
def create_study_session_beforeInsert (db : DB) (current_user : User)
    (session_data : StudySessionCreate) : Except HttpError Unit × DB :=
  match subjects_find_one db session_data.subject_id current_user.id with
  | none => (.error ⟨404, "Subject not found"⟩, db)
  | some _ =>
      let ce := credits_earned_of session_data.duration_minutes
      let users1 := incUserCounters db.users current_user.id ce
        session_data.duration_minutes
      (.ok (), { db with users := users1 })

/-- Embeds `create_study_session` (lines 352-400).  Parameters: the
generated session UUID `sid`, the current instant `now`, and the LLM
attempt outcome.  The returned pydantic object carries the datetime `now`;
the inserted document carries `isoformat(now)`, a string, because the
handler serialises the date before `insert_one` (line 397). -/
def create_study_session (db : DB) (current_user : User)
    (session_data : StudySessionCreate) (sid : String) (now : Int)
    (attempt : Option (LlmOutcome × Fin 5)) :
    Except HttpError StudySession × DB :=
  match subjects_find_one db session_data.subject_id current_user.id with
  | none => (.error ⟨404, "Subject not found"⟩, db)
  | some _ =>
      let ce := credits_earned_of session_data.duration_minutes
      let session : StudySession :=
        { id := sid, user_id := current_user.id,
          subject_id := session_data.subject_id,
          duration_minutes := session_data.duration_minutes,
          credits_earned := ce, date := .date now,
          motivational_phrases := sessionPhrases attempt }
      let users1 := incUserCounters db.users current_user.id ce
        session_data.duration_minutes
      let db1 : DB := { db with users := users1 }
      let stored : StudySession := { session with date := .str (isoformat now) }
      let db2 : DB := { db1 with study_sessions := db1.study_sessions ++ [stored] }
      (.ok session, db2)

/-- Whether a stored `date` value matches the dashboard range filter
`{"$gte": datetime.combine(today, min), "$lt": datetime.combine(today+1, min)}`
(lines 428-431 and 437-440).  The bounds are BSON Date values; MongoDB
comparison operators are type-bracketed, so only a Date-typed field can
satisfy the range — a BSON string (which is what `create_study_session`
stores, via `isoformat`) never matches. -/
def dateInTodayWindow (now : Int) (d : StoredDate) : Bool :=
  match d with
  | .date t =>
      decide (startOfDay (dateOf now) ≤ t) &&
        decide (t < startOfDay (dateOf now + 1))
  | .str _ => false

/-- The sessions the dashboard `find` for "today" returns (lines 435-441),
including the `to_list(100)` cap. -/
def dashboard_today_docs (db : DB) (uid : String) (now : Int) :
    List StudySession :=
  ((db.study_sessions.filter
    (fun s => s.user_id == uid && dateInTodayWindow now s.date)).take 100)

/-- Embeds the dashboard `today_sessions` count (`count_documents`,
lines 426-432; no cap applies to a count). -/
def dashboard_today_sessions (db : DB) (uid : String) (now : Int) : Nat :=
  (db.study_sessions.filter
    (fun s => s.user_id == uid && dateInTodayWindow now s.date)).length

/-- Embeds the dashboard `today_minutes` sum (line 443). -/
def dashboard_today_minutes (db : DB) (uid : String) (now : Int) : Int :=
  ((dashboard_today_docs db uid now).map StudySession.duration_minutes).sum

/-- Embeds the dashboard `today_credits` sum (line 444). -/
def dashboard_today_credits (db : DB) (uid : String) (now : Int) : Int :=
  ((dashboard_today_docs db uid now).map StudySession.credits_earned).sum

/-- Round-half-to-even at integer precision, the behaviour of Python
`round` on the exact value. -/
def roundHalfEven (x : ℚ) : ℤ :=
  let f := ⌊x⌋
  if x - f < 1 / 2 then f
  else if (1 : ℚ) / 2 < x - f then f + 1
  else if Even f then f else f + 1

/-- Models Python `round(x, 2)` on the exact value of `x`. -/
def pyRound2 (x : ℚ) : ℚ :=
  (roundHalfEven (x * 100) : ℚ) / 100

/-- The grade documents the dashboard reads for a user: owner-scoped find
capped by `to_list(1000)` (line 455). -/
def dashboard_grade_docs (db : DB) (uid : String) : List Grade :=
  (db.grades.filter (fun g => g.user_id == uid)).take 1000

/-- Embeds the dashboard `average_grade` computation (lines 456-459):
0 when the list is empty, otherwise `round(sum(grade values) / count, 2)`.
Only the `grade` field enters the sum; `max_grade` is never read. -/
def dashboard_average_grade (db : DB) (uid : String) : ℚ :=
  let grades := dashboard_grade_docs db uid
  if grades = [] then 0
  else pyRound2 (((grades.map Grade.grade).sum) / (grades.length : ℚ))

/-- The credits the study-session documents of `uid` sum to. -/
def sessionsCredits (ss : List StudySession) (uid : String) : Int :=
  ((ss.filter (fun s => s.user_id == uid)).map StudySession.credits_earned).sum

/-- The minutes the study-session documents of `uid` sum to. -/
def sessionsMinutes (ss : List StudySession) (uid : String) : Int :=
  ((ss.filter (fun s => s.user_id == uid)).map StudySession.duration_minutes).sum

/-- The counter invariant of the spec: every user document carries exactly
the sums of its session documents. -/
@[reducible] def countersInv (db : DB) : Prop :=
  ∀ u ∈ db.users,
    u.credits = sessionsCredits db.study_sessions u.id ∧
    u.total_study_minutes = sessionsMinutes db.study_sessions u.id

/-- One `POST /api/study-sessions` request: the caller is authenticated by
username (as `get_current_user` resolves the token subject against
`db.users.find_one({"username": ...})`), plus the request body and the
nondeterministic inputs of the handler. -/
structure SessionRequest where
  username : String
  data : StudySessionCreate
  sid : String
  now : Int
  attempt : Option (LlmOutcome × Fin 5)
deriving DecidableEq

/-- Runs one study-session request against the database: an unknown
username is a 401 with no state change, and a handler error likewise
leaves the returned state unchanged (the handler threads it). -/
def applySessionRequest (db : DB) (r : SessionRequest) : DB :=
  match db.users.find? (fun u => u.username == r.username) with
  | none => db
  | some u => (create_study_session db u r.data r.sid r.now r.attempt).2

/-- Concrete fixture: a registered user with zero counters. -/
def alice : User :=
  { id := "user-1", username := "alice", email := "alice@example.com",
    password_hash := hash_password "pw1", full_name := none,
    avatar := "default.png", credits := 0, total_study_minutes := 0,
    created_at := 0 }

/-- Concrete fixture: a subject owned by `alice`. -/
def mathSubject : Subject :=
  { id := "subj-1", user_id := "user-1", name := "Mathematics",
    color := "#3B82F6", target_hours_per_week := 0, created_at := 0 }

/-- Concrete fixture: a subject owned by somebody else. -/
def bobSubject : Subject :=
  { id := "subj-2", user_id := "user-2", name := "History",
    color := "#3B82F6", target_hours_per_week := 0, created_at := 0 }

/-- Concrete fixture database: `alice` plus her subject, nothing else. -/
def exDb : DB :=
  { users := [alice], subjects := [mathSubject, bobSubject], grades := [],
    study_sessions := [] }

/-- A concrete instant inside some UTC calendar day (not at its boundary). -/
def exNow : Int := 1000000

/-- The session object a 60-minute creation against `exDb` returns. -/
def exSess60 : StudySession :=
  { id := "sess-1", user_id := "user-1", subject_id := "subj-1",
    duration_minutes := 60, credits_earned := 10, date := .date exNow,
    motivational_phrases := [] }

/-- The database state after that 60-minute creation. -/
def exDbAfter60 : DB :=
  { users := [{ alice with credits := 10, total_study_minutes := 60 }],
    subjects := [mathSubject, bobSubject], grades := [],
    study_sessions := [{ exSess60 with date := .str (isoformat exNow) }] }

/-- A grade fixture owned by `alice` for a given value. -/
def mkAliceGrade (gid : String) (v : ℚ) : Grade :=
  { id := gid, user_id := "user-1", subject_id := "subj-1", grade := v,
    max_grade := 30, exam_name := "Exam", exam_date := 0, created_at := 0 }

/-- Fixture database whose grades for `alice` are 18 and 30. -/
def exDbGrades2 : DB :=
  { exDb with grades := [mkAliceGrade "g-1" 18, mkAliceGrade "g-2" 30] }

/-- Fixture database whose grades for `alice` are 20, 20 and 21. -/
def exDbGrades3 : DB :=
  { exDb with grades :=
      [mkAliceGrade "g-1" 20, mkAliceGrade "g-2" 20, mkAliceGrade "g-3" 21] }

/-- A default user document, used as the out-of-range default of
`List.getD` when user collections are compared pointwise. -/
def defaultUser : User :=
  { id := "", username := "", email := "", password_hash := "",
    full_name := none, avatar := "default.png", credits := 0,
    total_study_minutes := 0, created_at := 0 }

/-- Two concrete study-session requests by `alice`. -/
def exRequests : List SessionRequest :=
  [{ username := "alice", data := { subject_id := "subj-1", duration_minutes := 60 },
     sid := "sess-1", now := exNow, attempt := none },
   { username := "alice", data := { subject_id := "subj-1", duration_minutes := 45 },
     sid := "sess-2", now := exNow, attempt := some (.exn, (2 : Fin 5)) }]

/-- C1: the credits of a created study session are
`(duration_minutes // 30) * 5`; on non-negative durations this is `Nat`
floor division, so durations below 30 earn 0, 30 earns 5, 59 earns 5,
60 earns 10, and `30 * k` minutes earn `5 * k` for every `k` (no cap). -/
theorem credit_rule_spec :
    (∀ n : ℕ, credits_earned_of (n : Int) = ((n / 30) * 5 : ℕ)) ∧
    (∀ n : ℕ, n < 30 → credits_earned_of (n : Int) = 0) ∧
    credits_earned_of 29 = 0 ∧ credits_earned_of 30 = 5 ∧
    credits_earned_of 59 = 5 ∧ credits_earned_of 60 = 10 ∧
    (∀ k : ℕ, credits_earned_of ((30 * k : ℕ) : Int) = (5 * k : ℕ)) ∧
    (∀ db u d sid now att sess db2,
      create_study_session db u d sid now att = (.ok sess, db2) →
      sess.credits_earned = credits_earned_of d.duration_minutes) := by
  have hfd : ∀ n : ℕ, credits_earned_of (n : Int) = ((n / 30) * 5 : ℕ) := by
    intro n
    show Int.fdiv (n : ℤ) 30 * 5 = ((n / 30) * 5 : ℕ)
    rw [show ((30 : ℤ)) = ((30 : ℕ) : ℤ) from rfl, ← Int.ofNat_fdiv]
    push_cast
    ring
  refine ⟨hfd, ?_, by decide, by decide, by decide, by decide, ?_, ?_⟩
  · intro n hn
    rw [hfd n, Nat.div_eq_of_lt hn]
    simp
  · intro k
    rw [hfd]
    rw [Nat.mul_div_cancel_left k (by norm_num)]
    push_cast
    ring
  · intro db u d sid now att sess db2 h
    unfold create_study_session at h
    cases hf : subjects_find_one db d.subject_id u.id with
    | none => rw [hf] at h; simp at h
    | some s =>
        rw [hf] at h
        simp only [Prod.mk.injEq, Except.ok.injEq] at h
        rw [← h.1]

/-- Witness for `credit_rule_spec`: the handler equation instantiated at a
concrete 60-minute creation. -/
theorem credit_rule_spec_witness :
    exSess60.credits_earned = credits_earned_of ((60 : Int)) :=
  credit_rule_spec.2.2.2.2.2.2.2 exDb alice ⟨"subj-1", 60⟩ "sess-1" exNow
    none exSess60 exDbAfter60 (by rfl)

/-- C6: when no subject document with the requested id is owned by the
caller (which covers nonexistent subjects as well as subjects of other
users), both `add_grade` and `create_study_session` return 404 with detail
"Subject not found" (a NotFound, never a 403 Forbidden), and the returned
state is exactly the input state: the ownership lookup precedes every
write, so nothing is written. -/
theorem subject_ownership_check_spec :
    ∀ (db : DB) (u : User) (gd : GradeCreate) (sd : StudySessionCreate)
      (gid sid : String) (now : Int) (att : Option (LlmOutcome × Fin 5)),
    ((∀ s ∈ db.subjects, ¬(s.id = gd.subject_id ∧ s.user_id = u.id)) →
      add_grade db u gd gid now = (.error ⟨404, "Subject not found"⟩, db)) ∧
    ((∀ s ∈ db.subjects, ¬(s.id = sd.subject_id ∧ s.user_id = u.id)) →
      create_study_session db u sd sid now att =
        (.error ⟨404, "Subject not found"⟩, db)) := by
  intro db u gd sd gid sid now att
  constructor
  · intro h
    have hnone : subjects_find_one db gd.subject_id u.id = none := by
      apply List.find?_eq_none.mpr
      intro s hs
      simp only [Bool.and_eq_true, beq_iff_eq]
      exact fun hc => h s hs hc
    simp [add_grade, hnone]
  · intro h
    have hnone : subjects_find_one db sd.subject_id u.id = none := by
      apply List.find?_eq_none.mpr
      intro s hs
      simp only [Bool.and_eq_true, beq_iff_eq]
      exact fun hc => h s hs hc
    simp [create_study_session, hnone]

/-- Witness for `subject_ownership_check_spec`: a grade aimed at a subject
owned by another user, and a session aimed at a nonexistent subject. -/
theorem subject_ownership_check_spec_witness :
    (add_grade exDb alice ⟨"subj-2", 28, 30, "Analysis", 0⟩ "g-1" 0 =
      (.error ⟨404, "Subject not found"⟩, exDb)) ∧
    (create_study_session exDb alice ⟨"ghost", 45⟩ "sess-x" 0 none =
      (.error ⟨404, "Subject not found"⟩, exDb)) := by
  have h := subject_ownership_check_spec exDb alice
    ⟨"subj-2", 28, 30, "Analysis", 0⟩ ⟨"ghost", 45⟩ "g-1" "sess-x" 0 none
  exact ⟨h.1 (by decide), h.2 (by decide)⟩

/-- C8: registering a username or email that some stored user already
carries fails with 400 (the DuplicateError of the spec) and leaves the
users collection untouched; otherwise the new user is inserted and the
handler returns a token for that username together with the profile. -/
theorem register_duplicate_spec :
    ∀ (db : DB) (d : UserCreate) (uid : String) (now : Int),
    ((∃ u ∈ db.users, u.username = d.username ∨ u.email = d.email) →
      register_user db d uid now =
        (.error ⟨400, "Username or email already registered"⟩, db)) ∧
    ((∀ u ∈ db.users, u.username ≠ d.username ∧ u.email ≠ d.email) →
      register_user db d uid now =
        (.ok { access_token := create_access_token d.username now,
               token_type := "bearer",
               user := profileOf (mkRegisteredUser d uid now) },
          { db with users := db.users ++ [mkRegisteredUser d uid now] })) := by
  intro db d uid now
  constructor
  · rintro ⟨u, hu, hdup⟩
    have hsome : (users_find_duplicate db d.username d.email).isSome := by
      apply List.find?_isSome.mpr
      refine ⟨u, hu, ?_⟩
      simp only [Bool.or_eq_true, beq_iff_eq]
      tauto
    unfold register_user
    cases hfd : users_find_duplicate db d.username d.email with
    | none => rw [hfd] at hsome; simp at hsome
    | some v => rfl
  · intro h
    have hnone : users_find_duplicate db d.username d.email = none := by
      apply List.find?_eq_none.mpr
      intro u hu
      simp only [Bool.or_eq_true, beq_iff_eq]
      rintro (h1 | h2)
      · exact (h u hu).1 h1
      · exact (h u hu).2 h2
    unfold register_user
    rw [hnone]
    rfl

/-- Witness for `register_duplicate_spec`: re-registering alice fails and
changes nothing; registering a fresh bob inserts him and returns his
profile with zero counters. -/
theorem register_duplicate_spec_witness :
    (register_user exDb ⟨"alice", "other@example.com", "pw2", none⟩ "user-9" 5 =
      (.error ⟨400, "Username or email already registered"⟩, exDb)) ∧
    (register_user exDb ⟨"bob", "bob@example.com", "pw3", none⟩ "user-2" 5 =
      (.ok { access_token := create_access_token "bob" 5,
             token_type := "bearer",
             user := profileOf
               (mkRegisteredUser ⟨"bob", "bob@example.com", "pw3", none⟩
                 "user-2" 5) },
        { exDb with users := exDb.users ++
            [mkRegisteredUser ⟨"bob", "bob@example.com", "pw3", none⟩
              "user-2" 5] })) := by
  constructor
  · exact (register_duplicate_spec exDb
      ⟨"alice", "other@example.com", "pw2", none⟩ "user-9" 5).1
      ⟨alice, by decide, by decide⟩
  · exact (register_duplicate_spec exDb
      ⟨"bob", "bob@example.com", "pw3", none⟩ "user-2" 5).2 (by decide)

/-- When nothing matches, `delete_one` reports count 0 and returns the
collection unchanged. -/
theorem delete_one_not_found (l : List Subject) (p : Subject → Bool)
    (h : ∀ x ∈ l, ¬(p x = true)) : delete_one l p = (0, l) := by
  induction l with
  | nil => rfl
  | cons x xs ih =>
      have hx : p x = false := by
        have := h x (List.mem_cons_self x xs)
        simpa using this
      simp only [delete_one, hx, Bool.false_eq_true, if_false]
      rw [ih (fun y hy => h y (List.mem_cons_of_mem x hy))]

/-- When subject ids are unique and an owned match is present, the
owner-scoped `delete_one` removes it: the count is 1, no document with the
deleted id survives, and the result is a sublist of the input. -/
theorem delete_one_found (sid uid : String) :
    ∀ (l : List Subject), (l.map Subject.id).Nodup →
    ∀ s ∈ l, s.id = sid → s.user_id = uid →
    (delete_one l (fun t => t.id == sid && t.user_id == uid)).1 = 1 ∧
    (∀ t ∈ (delete_one l (fun t => t.id == sid && t.user_id == uid)).2,
      t.id ≠ sid) ∧
    (delete_one l (fun t => t.id == sid && t.user_id == uid)).2.Sublist l := by
  intro l
  induction l with
  | nil => intro _ s hs; exact absurd hs (List.not_mem_nil s)
  | cons x xs ih =>
      intro hnd s hs hid huid
      have hnd1 : x.id ∉ xs.map Subject.id := by
        simpa using (List.nodup_cons.mp hnd).1
      have hnd2 : (xs.map Subject.id).Nodup := (List.nodup_cons.mp hnd).2
      by_cases hpx : (x.id == sid && x.user_id == uid) = true
      · have hxid : x.id = sid := by
          have := (Bool.and_eq_true _ _).mp hpx
          exact beq_iff_eq.mp this.1
        refine ⟨by simp [delete_one, hpx], ?_, ?_⟩
        · intro t ht hts
          simp only [delete_one, hpx, if_true] at ht
          apply hnd1
          rw [hxid, ← hts]
          exact List.mem_map_of_mem Subject.id ht
        · simp only [delete_one, hpx, if_true]
          exact List.sublist_cons_self x xs
      · have hsx : s ≠ x := by
          intro he
          apply hpx
          rw [← he]
          simp [hid, huid]
        have hsxs : s ∈ xs := by
          cases List.mem_cons.mp hs with
          | inl h => exact absurd h hsx
          | inr h => exact h
        have hxid : x.id ≠ sid := by
          intro hxe
          exact hnd1 (hxe ▸ hid ▸ List.mem_map_of_mem Subject.id hsxs)
        obtain ⟨h1, h2, h3⟩ := ih hnd2 s hsxs hid huid
        refine ⟨?_, ?_, ?_⟩
        · simpa [delete_one, hpx] using h1
        · intro t ht
          simp only [delete_one, hpx, Bool.false_eq_true, if_false,
            List.mem_cons] at ht
          cases ht with
          | inl he => exact he ▸ hxid
          | inr he => exact h2 t he
        · simp only [delete_one, hpx, Bool.false_eq_true, if_false]
          exact List.Sublist.cons₂ x h3

/-- C9: deleting a subject the caller does not own (including a
nonexistent one) returns 404 and leaves the database exactly as it was;
deleting an owned subject (ids being unique) succeeds, the owner-scoped
subject list no longer contains the id, and the grades, study-session and
user collections are untouched (no cascade). -/
theorem delete_subject_spec :
    ∀ (db : DB) (u : User) (sid : String),
    ((∀ s ∈ db.subjects, ¬(s.id = sid ∧ s.user_id = u.id)) →
      delete_subject db u sid = (.error ⟨404, "Subject not found"⟩, db)) ∧
    ((db.subjects.map Subject.id).Nodup →
      ∀ s ∈ db.subjects, s.id = sid → s.user_id = u.id →
      (delete_subject db u sid).1 = .ok "Subject deleted successfully" ∧
      (∀ t ∈ get_subjects (delete_subject db u sid).2 u, t.id ≠ sid) ∧
      (delete_subject db u sid).2.grades = db.grades ∧
      (delete_subject db u sid).2.study_sessions = db.study_sessions ∧
      (delete_subject db u sid).2.users = db.users) := by
  intro db u sid
  constructor
  · intro h
    have hz : delete_one db.subjects
        (fun t => t.id == sid && t.user_id == u.id) = (0, db.subjects) := by
      apply delete_one_not_found
      intro x hx hc
      have := (Bool.and_eq_true _ _).mp hc
      exact h x hx ⟨beq_iff_eq.mp this.1, beq_iff_eq.mp this.2⟩
    simp [delete_subject, hz]
  · intro hnd s hs hid huid
    obtain ⟨h1, h2, h3⟩ := delete_one_found sid u.id db.subjects hnd s hs hid huid
    refine ⟨?_, ?_, ?_, ?_, ?_⟩
    · simp [delete_subject, h1]
    · intro t ht
      simp only [delete_subject, h1] at ht
      have ht2 : t ∈ (delete_one db.subjects
          (fun t => t.id == sid && t.user_id == u.id)).2 := by
        have := List.mem_of_mem_take ht
        exact List.mem_of_mem_filter this
      exact h2 t ht2
    · simp [delete_subject, h1]
    · simp [delete_subject, h1]
    · simp [delete_subject, h1]

/-- Witness for `delete_subject_spec`: alice cannot delete the subject of
user-2, and deleting her own subject keeps every other collection. -/
theorem delete_subject_spec_witness :
    (delete_subject exDb alice "subj-2" =
      (.error ⟨404, "Subject not found"⟩, exDb)) ∧
    ((delete_subject exDb alice "subj-1").1 =
      .ok "Subject deleted successfully") ∧
    (delete_subject exDb alice "subj-1").2.grades = exDb.grades ∧
    (delete_subject exDb alice "subj-1").2.study_sessions =
      exDb.study_sessions ∧
    (delete_subject exDb alice "subj-1").2.users = exDb.users := by
  have h1 := (delete_subject_spec exDb alice "subj-2").1 (by decide)
  have h2 := (delete_subject_spec exDb alice "subj-1").2 (by decide)
    mathSubject (by decide) (by decide) (by decide)
  exact ⟨h1, h2.1, h2.2.2.1, h2.2.2.2.1, h2.2.2.2.2⟩

/-- C10: on the success path of `create_study_session` the user-counter
increment is issued strictly before the session insert.  At the program
point between the two store calls (`create_study_session_beforeInsert`) the
user collection already carries the increment while the session collection
is still the old one, so a failing insert leaves exactly that state: the
counters raised with no session persisted.  The final state of the full
handler is that intermediate state plus the inserted document, and nothing
rolls the increment back on an insert error. -/
theorem increment_before_insert_spec :
    ∀ (db : DB) (u : User) (d : StudySessionCreate) (sid : String)
      (now : Int) (att : Option (LlmOutcome × Fin 5)) (s : Subject),
    subjects_find_one db d.subject_id u.id = some s →
    (create_study_session_beforeInsert db u d).2.users =
      incUserCounters db.users u.id (credits_earned_of d.duration_minutes)
        d.duration_minutes ∧
    (create_study_session_beforeInsert db u d).2.study_sessions =
      db.study_sessions ∧
    (create_study_session db u d sid now att).2 =
      { (create_study_session_beforeInsert db u d).2 with
          study_sessions :=
            (create_study_session_beforeInsert db u d).2.study_sessions ++
              [{ id := sid, user_id := u.id, subject_id := d.subject_id,
                 duration_minutes := d.duration_minutes,
                 credits_earned := credits_earned_of d.duration_minutes,
                 date := .str (isoformat now),
                 motivational_phrases := sessionPhrases att }] } := by
  intro db u d sid now att s h
  refine ⟨?_, ?_, ?_⟩ <;>
    simp [create_study_session, create_study_session_beforeInsert, h]

/-- Witness for `increment_before_insert_spec`: the concrete 60-minute
creation, where the intermediate state already shows 10 credits and 60
minutes for alice while the session list is still empty. -/
theorem increment_before_insert_spec_witness :
    (create_study_session_beforeInsert exDb alice ⟨"subj-1", 60⟩).2.users =
      incUserCounters exDb.users "user-1" (credits_earned_of 60) 60 ∧
    (create_study_session_beforeInsert exDb alice ⟨"subj-1", 60⟩).2.study_sessions =
      exDb.study_sessions ∧
    (create_study_session exDb alice ⟨"subj-1", 60⟩ "sess-1" exNow none).2 =
      { (create_study_session_beforeInsert exDb alice ⟨"subj-1", 60⟩).2 with
          study_sessions :=
            (create_study_session_beforeInsert exDb alice ⟨"subj-1", 60⟩).2.study_sessions ++
              [{ id := "sess-1", user_id := "user-1", subject_id := "subj-1",
                 duration_minutes := 60,
                 credits_earned := credits_earned_of 60,
                 date := .str (isoformat exNow),
                 motivational_phrases := sessionPhrases none }] } :=
  increment_before_insert_spec exDb alice ⟨"subj-1", 60⟩ "sess-1" exNow none
    mathSubject (by rfl)

/-- C3 counterexample: the request model accepts every integer duration,
and a creation with `duration_minutes = -1` is processed normally: Python
floor division gives `(-1 // 30) * 5 = -5`, so the operation DECREASES the
credits of alice from 0 to -5 and her total minutes from 0 to -1. -/
theorem counters_decrease_counterexample :
    (create_study_session exDb alice ⟨"subj-1", -1⟩ "sess-neg" exNow none).1 =
      .ok { id := "sess-neg", user_id := "user-1", subject_id := "subj-1",
            duration_minutes := -1, credits_earned := -5, date := .date exNow,
            motivational_phrases := [] } ∧
    (create_study_session exDb alice ⟨"subj-1", -1⟩ "sess-neg" exNow none).2.users =
      [{ alice with credits := -5, total_study_minutes := -1 }] ∧
    alice.credits = 0 ∧ alice.total_study_minutes = 0 :=
  ⟨rfl, rfl, rfl, rfl⟩

/-- `incUserCounters` never changes the number of user documents. -/
theorem incUserCounters_length (us : List User) (uid : String) (dc dm : Int) :
    (incUserCounters us uid dc dm).length = us.length := by
  induction us with
  | nil => rfl
  | cons u rest ih =>
      by_cases h : (u.id == uid) = true
      · simp [incUserCounters, h]
      · simp [incUserCounters, h, ih]

/-- Pointwise view of `incUserCounters`: each position is either untouched
or carries exactly the two added deltas. -/
theorem incUserCounters_getD (uid : String) (dc dm : Int) :
    ∀ (us : List User) (i : Nat),
    (incUserCounters us uid dc dm).getD i defaultUser =
      us.getD i defaultUser ∨
    (incUserCounters us uid dc dm).getD i defaultUser =
      { us.getD i defaultUser with
          credits := (us.getD i defaultUser).credits + dc,
          total_study_minutes :=
            (us.getD i defaultUser).total_study_minutes + dm } := by
  intro us
  induction us with
  | nil => intro i; left; rfl
  | cons u rest ih =>
      intro i
      by_cases h : (u.id == uid) = true
      · cases i with
        | zero => right; simp [incUserCounters, h]
        | succ j => left; simp [incUserCounters, h]
      · cases i with
        | zero => left; simp [incUserCounters, h]
        | succ j =>
            have := ih j
            simpa [incUserCounters, h] using this

/-- C3 amended: the credit balance and minute total start at 0 when a user
is registered; grade and subject operations never touch user documents;
and a study-session creation with a NON-NEGATIVE duration (the only change
the counterexample forces: durations are otherwise unconstrained) never
decreases any stored credit balance or minute total. -/
theorem counters_monotone_amended :
    (∀ (db : DB) (d : UserCreate) (uid : String) (now : Int) r db2,
      register_user db d uid now = (.ok r, db2) →
      r.user.credits = 0 ∧ r.user.total_study_minutes = 0) ∧
    (∀ (db : DB) (u : User) (gd : GradeCreate) (gid : String) (now : Int),
      (add_grade db u gd gid now).2.users = db.users) ∧
    (∀ (db : DB) (u : User) (sid : String),
      (delete_subject db u sid).2.users = db.users) ∧
    (∀ (db : DB) (u : User) (d : StudySessionCreate) (sid : String)
       (now : Int) (att : Option (LlmOutcome × Fin 5)),
      0 ≤ d.duration_minutes →
      (create_study_session db u d sid now att).2.users.length =
        db.users.length ∧
      ∀ i : Nat,
        (db.users.getD i defaultUser).credits ≤
          ((create_study_session db u d sid now att).2.users.getD i
            defaultUser).credits ∧
        (db.users.getD i defaultUser).total_study_minutes ≤
          ((create_study_session db u d sid now att).2.users.getD i
            defaultUser).total_study_minutes) := by
  refine ⟨?_, ?_, ?_, ?_⟩
  · intro db d uid now r db2 h
    unfold register_user at h
    cases hfd : users_find_duplicate db d.username d.email with
    | some v => rw [hfd] at h; simp at h
    | none =>
        rw [hfd] at h
        simp only [Prod.mk.injEq, Except.ok.injEq] at h
        rw [← h.1]
        exact ⟨rfl, rfl⟩
  · intro db u gd gid now
    cases h : subjects_find_one db gd.subject_id u.id <;>
      simp [add_grade, h]
  · intro db u sid
    unfold delete_subject
    by_cases h : ((delete_one db.subjects
        (fun s => s.id == sid && s.user_id == u.id)).1 == 0) = true <;>
      simp [h]
  · intro db u d sid now att hd
    have hce : 0 ≤ credits_earned_of d.duration_minutes :=
      mul_nonneg (Int.fdiv_nonneg hd (by norm_num)) (by norm_num)
    cases h : subjects_find_one db d.subject_id u.id with
    | none =>
        have husers : (create_study_session db u d sid now att).2.users =
            db.users := by simp [create_study_session, h]
        rw [husers]
        exact ⟨rfl, fun i => ⟨le_refl _, le_refl _⟩⟩
    | some s =>
        have husers : (create_study_session db u d sid now att).2.users =
            incUserCounters db.users u.id
              (credits_earned_of d.duration_minutes) d.duration_minutes := by
          simp [create_study_session, h]
        rw [husers]
        refine ⟨incUserCounters_length _ _ _ _, fun i => ?_⟩
        cases incUserCounters_getD u.id (credits_earned_of d.duration_minutes)
            d.duration_minutes db.users i with
        | inl he => rw [he]; exact ⟨le_refl _, le_refl _⟩
        | inr he =>
            rw [he]
            exact ⟨le_add_of_nonneg_right hce, le_add_of_nonneg_right hd⟩

/-- Witness for `counters_monotone_amended`: bob registers with zero
counters, and a concrete 60-minute creation does not decrease the counters
of alice. -/
theorem counters_monotone_amended_witness :
    (profileOf (mkRegisteredUser ⟨"bob", "bob@example.com", "pw3", none⟩
      "user-2" 5)).credits = 0 ∧
    (profileOf (mkRegisteredUser ⟨"bob", "bob@example.com", "pw3", none⟩
      "user-2" 5)).total_study_minutes = 0 ∧
    (create_study_session exDb alice ⟨"subj-1", 60⟩ "sess-1" exNow
      none).2.users.length = exDb.users.length ∧
    alice.credits ≤
      ((create_study_session exDb alice ⟨"subj-1", 60⟩ "sess-1" exNow
        none).2.users.getD 0 defaultUser).credits := by
  have h1 := counters_monotone_amended.1 exDb
    ⟨"bob", "bob@example.com", "pw3", none⟩ "user-2" 5
    { access_token := create_access_token "bob" 5, token_type := "bearer",
      user := profileOf (mkRegisteredUser
        ⟨"bob", "bob@example.com", "pw3", none⟩ "user-2" 5) }
    { exDb with users := exDb.users ++
        [mkRegisteredUser ⟨"bob", "bob@example.com", "pw3", none⟩
          "user-2" 5] } (by rfl)
  have h4 := counters_monotone_amended.2.2.2 exDb alice ⟨"subj-1", 60⟩
    "sess-1" exNow none (by norm_num)
  exact ⟨h1.1, h1.2, h4.1, (h4.2 0).1⟩

/-- C7 counterexample: an empty LLM response is one of the listed failure
modes, the creation still succeeds, but the attached phrase is the fixed
string of line 178 — which is NOT an element of the 5-phrase fallback
list, and the list is not empty either, contradicting the dichotomy the
claim states. -/
theorem phrase_fallback_counterexample :
    (create_study_session exDb alice ⟨"subj-1", 45⟩ "sess-e" exNow
      (some (.response "", (0 : Fin 5)))).1 =
      .ok { id := "sess-e", user_id := "user-1", subject_id := "subj-1",
            duration_minutes := 45, credits_earned := 5, date := .date exNow,
            motivational_phrases :=
              ["Continua così, stai facendo un ottimo lavoro!"] } ∧
    "Continua così, stai facendo un ottimo lavoro!" ∉ default_phrases ∧
    (["Continua così, stai facendo un ottimo lavoro!"] : List String) ≠
      [] := by
  exact ⟨rfl, by decide, by decide⟩

/-- C7 amended: with a valid owned subject the creation succeeds for EVERY
outcome of the motivational-phrase call, returning the created session and
never surfacing a failure.  The phrase list is empty when the call itself
cannot complete; it is a pick from the fixed 5-phrase fallback list when
the provider raised an exception; and on an empty response it is the fixed
default phrase of line 178, which is not in that list. -/
theorem phrase_failure_never_aborts_amended :
    ∀ (db : DB) (u : User) (d : StudySessionCreate) (sid : String)
      (now : Int) (att : Option (LlmOutcome × Fin 5)) (s : Subject),
    subjects_find_one db d.subject_id u.id = some s →
    (create_study_session db u d sid now att).1 =
      .ok { id := sid, user_id := u.id, subject_id := d.subject_id,
            duration_minutes := d.duration_minutes,
            credits_earned := credits_earned_of d.duration_minutes,
            date := .date now,
            motivational_phrases := sessionPhrases att } ∧
    (att = none → sessionPhrases att = []) ∧
    (∀ k : Fin 5, att = some (.exn, k) →
      ∀ p ∈ sessionPhrases att, p ∈ default_phrases) ∧
    (∀ k : Fin 5, att = some (.response "", k) →
      sessionPhrases att =
        ["Continua così, stai facendo un ottimo lavoro!"]) := by
  intro db u d sid now att s h
  refine ⟨by simp [create_study_session, h], ?_, ?_, ?_⟩
  · rintro rfl; rfl
  · rintro k rfl p hp
    simp only [sessionPhrases, generate_motivational_phrase,
      List.mem_singleton] at hp
    subst hp
    fin_cases k <;> decide
  · rintro k rfl
    rfl

/-- Witness for `phrase_failure_never_aborts_amended`: a creation whose
provider call raised, at fallback index 2. -/
theorem phrase_failure_never_aborts_amended_witness :
    (create_study_session exDb alice ⟨"subj-1", 45⟩ "sess-f" exNow
      (some (.exn, (2 : Fin 5)))).1 =
      .ok { id := "sess-f", user_id := "user-1", subject_id := "subj-1",
            duration_minutes := 45, credits_earned := credits_earned_of 45,
            date := .date exNow,
            motivational_phrases :=
              sessionPhrases (some (.exn, (2 : Fin 5))) } :=
  (phrase_failure_never_aborts_amended exDb alice ⟨"subj-1", 45⟩ "sess-f"
    exNow (some (.exn, (2 : Fin 5))) mathSubject (by rfl)).1

/-- The owner-scoped grade values the dashboard reads depend only on the
(owner, value) pairs of the stored grade documents: in particular the
`max_grade` field never enters. -/
theorem filter_map_grade_congr (uid : String) :
    ∀ (l1 l2 : List Grade),
    l1.map (fun g => (g.user_id, g.grade)) =
      l2.map (fun g => (g.user_id, g.grade)) →
    (l1.filter (fun g => g.user_id == uid)).map Grade.grade =
      (l2.filter (fun g => g.user_id == uid)).map Grade.grade := by
  intro l1
  induction l1 with
  | nil =>
      intro l2 h
      cases l2 with
      | nil => rfl
      | cons b bs => simp at h
  | cons a as ih =>
      intro l2 h
      cases l2 with
      | nil => simp at h
      | cons b bs =>
          simp only [List.map_cons, List.cons.injEq, Prod.mk.injEq] at h
          obtain ⟨⟨hu, hg⟩, ht⟩ := h
          by_cases hc : (a.user_id == uid) = true
          · have hb : (b.user_id == uid) = true := by rw [← hu]; exact hc
            simp only [List.filter_cons, hc, hb, if_true, List.map_cons]
            rw [hg, ih bs ht]
          · have hb : ¬((b.user_id == uid) = true) := by rw [← hu]; exact hc
            simp only [List.filter_cons, hc, hb, if_false, Bool.false_eq_true]
            exact ih bs ht

/-- Evaluation rule for `pyRound2` when the scaled value sits strictly
below the rounding tie. -/
theorem pyRound2_round_down (x : ℚ) (n : ℤ) (hf : ⌊x * 100⌋ = n)
    (hlt : x * 100 - (n : ℚ) < 1 / 2) : pyRound2 x = (n : ℚ) / 100 := by
  simp only [pyRound2, roundHalfEven]
  rw [hf, if_pos hlt]

/-- C4: the dashboard average is 0 exactly when the user has no grade
documents (no division happens then); otherwise it is the 2-decimal
rounding of the plain arithmetic mean of the grade values — `max_grade`
never influences the result (two stores agreeing on the (owner, value)
pairs give the same average) — and on the concrete grade sets of the spec
it evaluates to 24 and 20.33. -/
theorem average_grade_spec :
    (∀ (db : DB) (uid : String),
      db.grades.filter (fun g => g.user_id == uid) = [] →
      dashboard_average_grade db uid = 0) ∧
    (∀ (db : DB) (uid : String),
      (∀ g ∈ db.grades, g.user_id = uid) → db.grades ≠ [] →
      db.grades.length ≤ 1000 →
      dashboard_average_grade db uid =
        pyRound2 ((db.grades.map Grade.grade).sum /
          (db.grades.length : ℚ))) ∧
    (∀ (db1 db2 : DB) (uid : String),
      db1.grades.map (fun g => (g.user_id, g.grade)) =
        db2.grades.map (fun g => (g.user_id, g.grade)) →
      dashboard_average_grade db1 uid = dashboard_average_grade db2 uid) ∧
    dashboard_average_grade exDb "user-1" = 0 ∧
    dashboard_average_grade exDbGrades2 "user-1" = 24 ∧
    dashboard_average_grade exDbGrades3 "user-1" = 2033 / 100 := by
  have hval : ∀ (db : DB) (l : List Grade) (v : ℚ) (n : ℤ),
      dashboard_grade_docs db "user-1" = l → l ≠ [] →
      (l.map Grade.grade).sum / (l.length : ℚ) = v →
      ⌊v * 100⌋ = n → v * 100 - (n : ℚ) < 1 / 2 →
      dashboard_average_grade db "user-1" = (n : ℚ) / 100 := by
    intro db l v n hdocs hne hv hf hlt
    unfold dashboard_average_grade
    rw [hdocs, if_neg hne, hv]
    exact pyRound2_round_down v n hf hlt
  have h24 : dashboard_average_grade exDbGrades2 "user-1" = 24 := by
    have h := hval exDbGrades2
      [mkAliceGrade "g-1" 18, mkAliceGrade "g-2" 30] 24 2400 rfl
      (List.cons_ne_nil _ _) (by norm_num [mkAliceGrade])
      (by norm_num [Int.floor_eq_iff]) (by norm_num)
    rw [h]; norm_num
  have h2033 : dashboard_average_grade exDbGrades3 "user-1" = 2033 / 100 := by
    have h := hval exDbGrades3
      [mkAliceGrade "g-1" 20, mkAliceGrade "g-2" 20, mkAliceGrade "g-3" 21]
      (61 / 3) 2033 rfl (List.cons_ne_nil _ _) (by norm_num [mkAliceGrade])
      (by norm_num [Int.floor_eq_iff]) (by norm_num)
    rw [h]; norm_num
  refine ⟨?_, ?_, ?_, by rfl, h24, h2033⟩
  · intro db uid h
    simp [dashboard_average_grade, dashboard_grade_docs, h]
  · intro db uid hown hne hlen
    have hfil : db.grades.filter (fun g => g.user_id == uid) = db.grades :=
      List.filter_eq_self.mpr (fun g hg => beq_iff_eq.mpr (hown g hg))
    have hdocs : dashboard_grade_docs db uid = db.grades := by
      rw [dashboard_grade_docs, hfil]
      exact List.take_of_length_le hlen
    rw [dashboard_average_grade, hdocs, if_neg hne]
  · intro db1 db2 uid h
    have hm := filter_map_grade_congr uid db1.grades db2.grades h
    have hl : (db1.grades.filter (fun g => g.user_id == uid)).length =
        (db2.grades.filter (fun g => g.user_id == uid)).length := by
      have := congrArg List.length hm
      simpa using this
    have hms : ((db1.grades.filter (fun g => g.user_id == uid)).take
        1000).map Grade.grade =
        ((db2.grades.filter (fun g => g.user_id == uid)).take
          1000).map Grade.grade := by
      rw [List.map_take, List.map_take, hm]
    have hlt : ((db1.grades.filter (fun g => g.user_id == uid)).take
        1000).length =
        ((db2.grades.filter (fun g => g.user_id == uid)).take
          1000).length := by
      rw [List.length_take, List.length_take, hl]
    rw [dashboard_average_grade, dashboard_average_grade,
      dashboard_grade_docs, dashboard_grade_docs]
    by_cases he : (db1.grades.filter (fun g => g.user_id == uid)).take
        1000 = []
    · have he2 : (db2.grades.filter (fun g => g.user_id == uid)).take
          1000 = [] := by
        rw [← List.length_eq_zero, ← hlt, List.length_eq_zero]
        exact he
      rw [if_pos he, if_pos he2]
    · have he2 : ¬((db2.grades.filter (fun g => g.user_id == uid)).take
          1000 = []) := by
        rw [← List.length_eq_zero, ← hlt, List.length_eq_zero]
        exact he
      rw [if_neg he, if_neg he2]
      have hsum : (((db1.grades.filter (fun g => g.user_id == uid)).take
          1000).map Grade.grade).sum =
          (((db2.grades.filter (fun g => g.user_id == uid)).take
            1000).map Grade.grade).sum := by
        rw [hms]
      rw [hsum, hlt]

/-- Witness for `average_grade_spec`: alice with no grades averages 0, and
with the grades 18 and 30 her average is the rounded mean. -/
theorem average_grade_spec_witness :
    dashboard_average_grade exDb "user-1" = 0 ∧
    dashboard_average_grade exDbGrades2 "user-1" =
      pyRound2 ((exDbGrades2.grades.map Grade.grade).sum /
        (exDbGrades2.grades.length : ℚ)) := by
  constructor
  · exact average_grade_spec.1 exDb "user-1" (by decide)
  · exact average_grade_spec.2.1 exDbGrades2 "user-1" (by decide)
      (by decide) (by decide)

/-- C5: the dashboard "today" metrics never see any session this service
creates.  A session is persisted with its `date` serialised by `isoformat`
into a BSON string (line 397), while the dashboard range filter carries
BSON Date bounds (lines 428-431); MongoDB comparison operators are
type-bracketed, so a string field never satisfies a Date-typed `$gte`/`$lt`
range.  Concretely: alice creates a 60-minute session at the instant
`exNow`; that instant lies inside the very window the filter intends, and
a Date-typed value at `exNow` WOULD match — yet `today_sessions`,
`today_minutes` and `today_credits`, read at the same instant, are all 0,
where the claim requires 1, 60 and 10.  A string-typed date never matches
any window. -/
theorem today_window_never_matches :
    (create_study_session exDb alice ⟨"subj-1", 60⟩ "sess-1" exNow
      none).2.study_sessions =
      [{ exSess60 with date := .str (isoformat exNow) }] ∧
    (startOfDay (dateOf exNow) ≤ exNow ∧
      exNow < startOfDay (dateOf exNow + 1)) ∧
    dateInTodayWindow exNow (.date exNow) = true ∧
    dashboard_today_sessions
      (create_study_session exDb alice ⟨"subj-1", 60⟩ "sess-1" exNow none).2
      "user-1" exNow = 0 ∧
    dashboard_today_minutes
      (create_study_session exDb alice ⟨"subj-1", 60⟩ "sess-1" exNow none).2
      "user-1" exNow = 0 ∧
    dashboard_today_credits
      (create_study_session exDb alice ⟨"subj-1", 60⟩ "sess-1" exNow none).2
      "user-1" exNow = 0 ∧
    (∀ s : String, ∀ t : Int, dateInTodayWindow t (.str s) = false) := by
  refine ⟨rfl, by decide, by decide, rfl, rfl, rfl, fun s t => rfl⟩

/-- Appending one session document extends the per-user sums by exactly
that document's contribution. -/
theorem sessionsCredits_append (ss : List StudySession) (s : StudySession)
    (uid : String) :
    sessionsCredits (ss ++ [s]) uid =
      sessionsCredits ss uid +
        (if (s.user_id == uid) = true then s.credits_earned else 0) := by
  unfold sessionsCredits
  rw [List.filter_append]
  by_cases h : (s.user_id == uid) = true
  · simp [h]
  · simp [h]

/-- Minute counterpart of `sessionsCredits_append`. -/
theorem sessionsMinutes_append (ss : List StudySession) (s : StudySession)
    (uid : String) :
    sessionsMinutes (ss ++ [s]) uid =
      sessionsMinutes ss uid +
        (if (s.user_id == uid) = true then s.duration_minutes else 0) := by
  unfold sessionsMinutes
  rw [List.filter_append]
  by_cases h : (s.user_id == uid) = true
  · simp [h]
  · simp [h]

/-- With unique user ids, every document of the updated user collection is
either an untouched document whose id differs from the target, or the
single target document with both deltas applied. -/
theorem incUserCounters_mem (uid : String) (dc dm : Int) :
    ∀ (us : List User), (us.map User.id).Nodup →
    ∀ v ∈ incUserCounters us uid dc dm,
      (v.id ≠ uid ∧ v ∈ us) ∨
      (∃ w ∈ us, w.id = uid ∧
        v = { w with credits := w.credits + dc,
                     total_study_minutes := w.total_study_minutes + dm }) := by
  intro us
  induction us with
  | nil => intro _ v hv; exact absurd hv (List.not_mem_nil v)
  | cons u rest ih =>
      intro hnd v hv
      have hnd1 : u.id ∉ rest.map User.id := by
        simpa using (List.nodup_cons.mp hnd).1
      have hnd2 : (rest.map User.id).Nodup := (List.nodup_cons.mp hnd).2
      by_cases h : (u.id == uid) = true
      · have huid : u.id = uid := beq_iff_eq.mp h
        simp only [incUserCounters, h, if_true, List.mem_cons] at hv
        cases hv with
        | inl he =>
            right
            exact ⟨u, List.mem_cons_self u rest, huid, he⟩
        | inr he =>
            left
            refine ⟨?_, List.mem_cons_of_mem u he⟩
            intro hvid
            apply hnd1
            rw [huid, ← hvid]
            exact List.mem_map_of_mem User.id he
      · have huid : ¬(u.id = uid) := by
          intro he
          exact h (beq_iff_eq.mpr he)
        simp only [incUserCounters, h, Bool.false_eq_true, if_false,
          List.mem_cons] at hv
        cases hv with
        | inl he =>
            left
            subst he
            exact ⟨huid, List.mem_cons_self v rest⟩
        | inr he =>
            cases ih hnd2 v he with
            | inl hc => exact Or.inl ⟨hc.1, List.mem_cons_of_mem u hc.2⟩
            | inr hc =>
                obtain ⟨w, hw, hwid, hveq⟩ := hc
                exact Or.inr ⟨w, List.mem_cons_of_mem u hw, hwid, hveq⟩

/-- `incUserCounters` changes no user ids. -/
theorem incUserCounters_map_id (uid : String) (dc dm : Int) :
    ∀ us : List User,
    (incUserCounters us uid dc dm).map User.id = us.map User.id := by
  intro us
  induction us with
  | nil => rfl
  | cons u rest ih =>
      by_cases h : (u.id == uid) = true
      · simp [incUserCounters, h]
      · simp [incUserCounters, h, ih]

/-- One successful or failed `create_study_session` call preserves the
counter invariant, provided user ids are unique. -/
theorem create_session_preserves_inv (db : DB) (cu : User)
    (d : StudySessionCreate) (sid : String) (now : Int)
    (att : Option (LlmOutcome × Fin 5))
    (hnd : (db.users.map User.id).Nodup) (hinv : countersInv db) :
    countersInv (create_study_session db cu d sid now att).2 := by
  cases h : subjects_find_one db d.subject_id cu.id with
  | none =>
      have hsame : (create_study_session db cu d sid now att).2 = db := by
        simp [create_study_session, h]
      rw [hsame]
      exact hinv
  | some s =>
      intro v hv
      have husers : (create_study_session db cu d sid now att).2.users =
          incUserCounters db.users cu.id
            (credits_earned_of d.duration_minutes) d.duration_minutes := by
        simp [create_study_session, h]
      have hss : (create_study_session db cu d sid now att).2.study_sessions =
          db.study_sessions ++
            [{ id := sid, user_id := cu.id, subject_id := d.subject_id,
               duration_minutes := d.duration_minutes,
               credits_earned := credits_earned_of d.duration_minutes,
               date := .str (isoformat now),
               motivational_phrases := sessionPhrases att }] := by
        simp [create_study_session, h]
      rw [husers] at hv
      rw [hss, sessionsCredits_append, sessionsMinutes_append]
      cases incUserCounters_mem cu.id (credits_earned_of d.duration_minutes)
          d.duration_minutes db.users hnd v hv with
      | inl hc =>
          obtain ⟨hne, hvmem⟩ := hc
          obtain ⟨hcred, hmin⟩ := hinv v hvmem
          have hbeq : ¬((cu.id == v.id) = true) := by
            intro hb
            exact hne (beq_iff_eq.mp hb).symm
          simp only [hbeq, if_false, Bool.false_eq_true, add_zero]
          exact ⟨hcred, hmin⟩
      | inr hc =>
          obtain ⟨w, hw, hwid, hveq⟩ := hc
          obtain ⟨hcred, hmin⟩ := hinv w hw
          subst hveq
          have hbeq : (cu.id == w.id) = true := beq_iff_eq.mpr hwid.symm
          simp only [hbeq, if_true]
          constructor
          · show w.credits + credits_earned_of d.duration_minutes = _
            rw [hcred]
          · show w.total_study_minutes + d.duration_minutes = _
            rw [hmin]

/-- Running one authenticated study-session request preserves the counter
invariant. -/
theorem applySessionRequest_preserves_inv (db : DB) (r : SessionRequest)
    (hnd : (db.users.map User.id).Nodup) (hinv : countersInv db) :
    countersInv (applySessionRequest db r) := by
  unfold applySessionRequest
  cases hf : db.users.find? (fun u => u.username == r.username) with
  | none => exact hinv
  | some u =>
      exact create_session_preserves_inv db u r.data r.sid r.now r.attempt
        hnd hinv

/-- Requests never change the list of user ids. -/
theorem applySessionRequest_map_id (db : DB) (r : SessionRequest) :
    (applySessionRequest db r).users.map User.id =
      db.users.map User.id := by
  unfold applySessionRequest
  cases hf : db.users.find? (fun u => u.username == r.username) with
  | none => rfl
  | some u =>
      cases h : subjects_find_one db r.data.subject_id u.id with
      | none => simp [create_study_session, h]
      | some s => simp [create_study_session, h, incUserCounters_map_id]

/-- C2: starting from any state whose user counters equal the per-user
sums over the stored study sessions (user ids unique, as the generated
UUIDs are), ANY sequence of study-session requests — successful or
failing, by any callers — preserves that equality: each creation updates
the owning user document by exactly the increment `$inc` of the new
session document, so credits and total_study_minutes always equal the
sums of credits_earned and duration_minutes over that user's sessions. -/
theorem counters_invariant_spec :
    ∀ (rs : List SessionRequest) (db : DB),
    (db.users.map User.id).Nodup → countersInv db →
    countersInv (List.foldl applySessionRequest db rs) := by
  intro rs
  induction rs with
  | nil => intro db _ hinv; exact hinv
  | cons r rest ih =>
      intro db hnd hinv
      simp only [List.foldl_cons]
      apply ih
      · rw [applySessionRequest_map_id]
        exact hnd
      · exact applySessionRequest_preserves_inv db r hnd hinv

/-- Witness for `counters_invariant_spec`: alice runs two concrete
sessions (60 and 45 minutes) and her counters still equal the sums. -/
theorem counters_invariant_spec_witness :
    countersInv (List.foldl applySessionRequest exDb exRequests) :=
  counters_invariant_spec exRequests exDb (by decide) (by decide)

end StudyNest
